import Mathlib

/-!
A shallow embedding of beamium's configuration loader (src/config.rs) and of the
fragment of its external dependencies (the regex crate, yaml-rust documents,
the cast crate, slog levels) that the loader exercises.  Pure Rust functions
become Lean functions; the mutable `&mut Config` threading of `load_path`
becomes explicit state passing in the `Except` monad.  File input and YAML
scanning are modelled at their boundary: a file is given as its list of parsed
YAML documents.
-/

/-! ## Regex engine (models the subset of the regex crate used by config.rs)

The loader compiles patterns of the form `^...` built from literal characters,
`.`, the classes `\s` / `\S`, escaped metacharacters, groups `( )` and the
star repetition.  We model exactly this subset: a pattern outside the subset
fails to compile, mirroring `regex::Error` for the malformed patterns the
claims exercise.  Matching is by Brzozowski derivatives; `is_match` of an
`^`-anchored pattern asks whether the pattern matches some prefix of the
subject, and an unanchored pattern may start at any position, as in the regex
crate. -/

/-- ASCII whitespace as matched by the regex class `\s`. -/
def isSpaceChar (c : Char) : Bool :=
  c = ' ' || c = '\t' || c = '\n' || c = '\x0b' || c = '\x0c' || c = '\r'

/-- Regular-expression abstract syntax for the subset used by the loader.
`fail` and `alt` are not produced by the parser; they arise as derivatives. -/
inductive Re where
  | fail : Re
  | eps : Re
  | char : Char → Re
  | anyc : Re
  | spc : Re
  | nspc : Re
  | seq : Re → Re → Re
  | alt : Re → Re → Re
  | star : Re → Re
  | group : Re → Re
deriving DecidableEq, Repr

/-- Does the expression accept the empty string? -/
def Re.nullable : Re → Bool
  | .fail => false
  | .eps => true
  | .char _ => false
  | .anyc => false
  | .spc => false
  | .nspc => false
  | .seq a b => a.nullable && b.nullable
  | .alt a b => a.nullable || b.nullable
  | .star _ => true
  | .group a => a.nullable

/-- Brzozowski derivative with respect to one character.  `.` does not match
a newline, as in the regex crate's default configuration. -/
def Re.deriv : Re → Char → Re
  | .fail, _ => .fail
  | .eps, _ => .fail
  | .char c, d => if c = d then .eps else .fail
  | .anyc, d => if d = '\n' then .fail else .eps
  | .spc, d => if isSpaceChar d then .eps else .fail
  | .nspc, d => if isSpaceChar d then .fail else .eps
  | .seq a b, d =>
    if a.nullable then .alt (.seq (a.deriv d) b) (b.deriv d)
    else .seq (a.deriv d) b
  | .alt a b, d => .alt (a.deriv d) (b.deriv d)
  | .star a, d => .seq (a.deriv d) (.star a)
  | .group a, d => a.deriv d

/-- Does `r` match some prefix of `cs`? -/
def reMatchAt (r : Re) : List Char → Bool
  | [] => r.nullable
  | c :: cs => r.nullable || reMatchAt (r.deriv c) cs

/-- Does `r` match a substring starting at some position of `cs`? -/
def reMatchSomewhere (r : Re) : List Char → Bool
  | [] => r.nullable
  | c :: cs => reMatchAt r (c :: cs) || reMatchSomewhere r cs

/-- Characters that may not stand bare in the modelled pattern subset. -/
def isMetaChar (c : Char) : Bool :=
  c = '*' || c = '+' || c = '?' || c = '[' || c = ']' ||
  c = '{' || c = '}' || c = '|' || c = '^' || c = '$'

/-- Escapes accepted after a backslash in the modelled subset. -/
def escapeRe (c : Char) : Option Re :=
  if c = 'S' then some .nspc
  else if c = 's' then some .spc
  else if c = '.' || c = '\\' || c = '(' || c = ')' || c = '*' || c = '+' ||
          c = '?' || c = '[' || c = ']' || c = '{' || c = '}' || c = '|' ||
          c = '^' || c = '$' || c = '/' then some (.char c)
  else none

/-- Parse a concatenation of atoms (each optionally starred) until the end of
the input or an unmatched closing parenthesis.  Fuelled recursion. -/
def parseSeqF : Nat → List Char → Option (Re × List Char)
  | 0, _ => none
  | _ + 1, [] => some (.eps, [])
  | _ + 1, ')' :: rest => some (.eps, ')' :: rest)
  | fuel + 1, c :: cs =>
    (match c, cs with
      | '(', rest =>
        (parseSeqF fuel rest).bind fun pr =>
          match pr.2 with
          | ')' :: rest3 => some (Re.group pr.1, rest3)
          | _ => none
      | '.', rest => some (Re.anyc, rest)
      | '\\', d :: rest => (escapeRe d).map fun r => (r, rest)
      | '\\', [] => none
      | c, rest => if isMetaChar c then none else some (Re.char c, rest)
    ).bind fun ar =>
      (match ar.2 with
        | '*' :: r2 => some (Re.star ar.1, r2)
        | rest2 => some (ar.1, rest2)
      ).bind fun br =>
        (parseSeqF fuel br.2).map fun (sr : Re × List Char) => (Re.seq br.1 sr.1, sr.2)

/-- A compiled regular expression: the original pattern (`as_str`), whether it
was anchored with a leading caret, and the parsed body. -/
structure Regex where
  pattern : String
  anchored : Bool
  re : Re
deriving DecidableEq, Repr

/-- Models `regex::Regex::new`: `none` is a compile error. -/
def Regex.new (s : String) : Option Regex :=
  let cs := s.toList
  let st : Bool × List Char :=
    match cs with
    | '^' :: r => (true, r)
    | _ => (false, cs)
  match parseSeqF (2 * cs.length + 2) st.2 with
  | some (r, []) => some { pattern := s, anchored := st.1, re := r }
  | _ => none

/-- Models `regex::Regex::is_match`. -/
def Regex.is_match (rx : Regex) (s : String) : Bool :=
  if rx.anchored then reMatchAt rx.re s.toList
  else reMatchSomewhere rx.re s.toList

/-- Models `regex::RegexSet`: alternatives with match-if-any semantics. -/
structure RegexSet where
  regexes : List Regex
deriving DecidableEq, Repr

/-- Compile every pattern of a list, failing on the first bad one, as
`regex::RegexSet::new` does. -/
def compileRegexList : List String → Option (List Regex)
  | [] => some []
  | p :: rest =>
    (Regex.new p).bind fun r =>
      (compileRegexList rest).map fun rs => r :: rs

/-- Models `regex::RegexSet::new`. -/
def RegexSet.new (pats : List String) : Option RegexSet :=
  (compileRegexList pats).map RegexSet.mk

/-- Models `regex::RegexSet::is_match`: true when ANY member matches. -/
def RegexSet.is_match (rs : RegexSet) (s : String) : Bool :=
  rs.regexes.any fun r => r.is_match s


/-! ## YAML document model (models the yaml-rust values consumed by config.rs)

`Yaml.hash` keeps the insertion order of the underlying linked hash map.
Integer scalars carry an `Int`; `as_i64` succeeds only within the i64 range,
since yaml-rust never produces an `Integer` outside it (an overflowing literal
fails integer resolution and `as_i64` returns `None`). -/

inductive Yaml where
  | nullv : Yaml
  | boolv : Bool → Yaml
  | int : Int → Yaml
  | real : String → Yaml
  | str : String → Yaml
  | arr : List Yaml → Yaml
  | hash : List (Yaml × Yaml) → Yaml
  | badValue : Yaml

/-- Key comparison as performed by `Yaml`'s `Index<&str>`: the probe key is a
YAML string, so only string keys can compare equal. -/
def Yaml.keyEq : Yaml → String → Bool
  | .str t, key => t == key
  | _, _ => false

/-- Ordered lookup in a hash's entry list (keys are unique in yaml-rust). -/
def lookupEntries : List (Yaml × Yaml) → String → Yaml
  | [], _ => .badValue
  | (k, v) :: rest, key => if k.keyEq key then v else lookupEntries rest key

/-- Models `doc["key"]`: `BadValue` when the node is not a hash or the key is
missing. -/
def Yaml.idx (y : Yaml) (key : String) : Yaml :=
  match y with
  | .hash entries => lookupEntries entries key
  | _ => .badValue

def Yaml.is_badvalue : Yaml → Bool
  | .badValue => true
  | _ => false

def Yaml.as_str : Yaml → Option String
  | .str s => some s
  | _ => none

/-- Models `Yaml::as_i64`. -/
def Yaml.as_i64 : Yaml → Option Int
  | .int n => if -(2 ^ 63) ≤ n ∧ n < 2 ^ 63 then some n else none
  | _ => none

def Yaml.as_hash : Yaml → Option (List (Yaml × Yaml))
  | .hash entries => some entries
  | _ => none

def Yaml.as_vec : Yaml → Option (List Yaml)
  | .arr items => some items
  | _ => none

/-! ## External helper crates -/

/-- Models `cast::u64(i64)`: fails exactly on negative input. -/
def castU64 (n : Int) : Option Nat :=
  if 0 ≤ n then some n.toNat else none

/-- Models `slog::Level`. -/
inductive Level where
  | critical : Level
  | error : Level
  | warning : Level
  | info : Level
  | debug : Level
  | trace : Level
deriving DecidableEq, Repr

/-- Models `slog::Level::from_usize`. -/
def Level.from_usize : Nat → Option Level
  | 1 => some .critical
  | 2 => some .error
  | 3 => some .warning
  | 4 => some .info
  | 5 => some .debug
  | 6 => some .trace
  | _ => none

/-! ## Configuration data model (structs of src/config.rs) -/

/-- Source format. -/
inductive SourceFormat where
  | prometheus : SourceFormat
  | sensision : SourceFormat
deriving DecidableEq, Repr

/-- Source config. -/
structure Source where
  name : String
  url : String
  period : Nat
  format : SourceFormat
  metrics : Option RegexSet
deriving DecidableEq, Repr

/-- Sink config. -/
structure Sink where
  name : String
  url : String
  token : String
  token_header : String
  selector : Option Regex
  ttl : Nat
  size : Nat
deriving DecidableEq, Repr

/-- Parameters config. -/
structure Parameters where
  scan_period : Nat
  sink_dir : String
  source_dir : String
  batch_size : Nat
  batch_count : Nat
  log_file : String
  log_level : Level
  timeout : Nat
deriving DecidableEq, Repr

/-- Config root.  `labels` models the `HashMap<String, String>` as an
association list with unique keys; `insertLabel` below realises
`HashMap::insert`'s replace-or-add semantics. -/
structure Config where
  sources : List Source
  sinks : List Sink
  labels : List (String × String)
  parameters : Parameters
deriving DecidableEq, Repr

/-- Config Error.  `io` and `yaml` errors happen at the file boundary, which
the embedding does not model; `regexErr` carries the offending pattern, since
the regex crate's error mentions only the pattern, and `format` carries the
message built at the failing extraction site. -/
inductive ConfigError where
  | io : String → ConfigError
  | yaml : String → ConfigError
  | regexErr : String → ConfigError
  | format : String → ConfigError
deriving DecidableEq, Repr

/-- The rendered message of an error (`Display`).  For `regexErr` this models
the regex crate's `Display`, which embeds the pattern and a description but
never the configuration entry or field that supplied it. -/
def ConfigError.message : ConfigError → String
  | .io m => m
  | .yaml m => m
  | .regexErr pat => "regex parse error: " ++ pat
  | .format m => m

/-- Models `try!(opt.ok_or(err))`. -/
def ofOption {α : Type} (o : Option α) (e : ConfigError) : Except ConfigError α :=
  match o with
  | some a => .ok a
  | none => .error e

/-! ## Document merging (the body of `load_path`, src/config.rs lines 193-392)

The Rust loop mutates `config` in place and aborts with `try!` on the first
error; since `load_config` discards the partially mutated value on error, each
section is modelled as parse-then-append / parse-then-overwrite, which is
observationally identical. -/

/-- The `metrics` loop (lines 230-236): each item must be a string that
compiles as a regex on its own; the pushed pattern is the transformed string
`"^(\S*)\s" + value.as_str()`. -/
def compileMetricsList (name : String) : List Yaml → Except ConfigError (List String)
  | [] => .ok []
  | v :: rest => do
    let s ← ofOption v.as_str (.format ("metrics." ++ name ++ " is invalid"))
    let value ← ofOption (Regex.new s) (.regexErr s)
    let restPats ← compileMetricsList name rest
    .ok (("^(\\S*)\\s" ++ value.pattern) :: restPats)

/-- Like `RegexSet::new`, but reporting the first failing pattern as the
regex error, matching the `try!` conversion in the source. -/
def regexSetNewE : List String → Except ConfigError (List Regex)
  | [] => .ok []
  | p :: rest => do
    let r ← ofOption (Regex.new p) (.regexErr p)
    let rs ← regexSetNewE rest
    .ok (r :: rs)

/-- The `format` block of a source entry (lines 210-226), including its
`sinks.`-prefixed error messages, faithful to the source text. -/
def sourceFormatOf (name : String) (v : Yaml) : Except ConfigError SourceFormat :=
  if (v.idx "format").is_badvalue then
    .ok SourceFormat.prometheus
  else do
    let f ← ofOption (v.idx "format").as_str
      (.format ("sinks." ++ name ++ ".format should be a string"))
    if f = "prometheus" then .ok SourceFormat.prometheus
    else if f = "sensision" then .ok SourceFormat.sensision
    else .error (.format
      ("sinks." ++ name ++ ".format should be 'Prometheus' or 'sensision'"))

/-- The `metrics` block of a source entry (lines 227-239). -/
def sourceMetricsOf (name : String) (v : Yaml) : Except ConfigError (Option RegexSet) :=
  if (v.idx "metrics").is_badvalue then
    .ok none
  else do
    let values ← ofOption (v.idx "metrics").as_vec (.format "metrics should be an array")
    let pats ← compileMetricsList name values
    let rs ← regexSetNewE pats
    .ok (some (RegexSet.mk rs))

/-- One entry of the `sources` map (lines 199-248). -/
def parseSourceEntry (k v : Yaml) : Except ConfigError Source := do
  let name ← ofOption k.as_str (.format "sources keys should be a string")
  let url ← ofOption (v.idx "url").as_str
    (.format ("sources." ++ name ++ ".url is required and should be a string"))
  let periodI ← ofOption (v.idx "period").as_i64
    (.format ("sources." ++ name ++ ".period is required and should be a number"))
  let period ← ofOption (castU64 periodI)
    (.format ("sources." ++ name ++ ".period is invalid"))
  let format ← sourceFormatOf name v
  let metrics ← sourceMetricsOf name v
  .ok { name := name, url := url, period := period, format := format, metrics := metrics }

/-- Fold `parseSourceEntry` over the map's entries in order. -/
def parseSourceEntries : List (Yaml × Yaml) → Except ConfigError (List Source)
  | [] => .ok []
  | (k, v) :: rest => do
    let s ← parseSourceEntry k v
    let ss ← parseSourceEntries rest
    .ok (s :: ss)

/-- The `sources` slice of one document: the list of sources the document
contributes (lines 194-249). -/
def parseSourcesDoc (doc : Yaml) : Except ConfigError (List Source) :=
  if (doc.idx "sources").is_badvalue then .ok []
  else do
    let entries ← ofOption (doc.idx "sources").as_hash (.format "sources should be a map")
    parseSourceEntries entries

/-- Apply the `sources` section: successfully parsed sources are pushed onto
the existing vector. -/
def applySources (doc : Yaml) (c : Config) : Except ConfigError Config := do
  let ss ← parseSourcesDoc doc
  .ok { c with sources := c.sources ++ ss }

/-- The `token-header` block of a sink entry (lines 261-267). -/
def sinkTokenHeaderOf (name : String) (v : Yaml) : Except ConfigError String :=
  if (v.idx "token-header").is_badvalue then
    .ok "X-Warp10-Token"
  else
    ofOption (v.idx "token-header").as_str
      (.format ("sinks." ++ name ++ ".token-header should be a string"))

/-- The `selector` block of a sink entry (lines 269-279): the user string is
compiled with a `^` prepended. -/
def sinkSelectorOf (name : String) (v : Yaml) : Except ConfigError (Option Regex) :=
  if (v.idx "selector").is_badvalue then
    .ok none
  else do
    let s ← ofOption (v.idx "selector").as_str
      (.format ("sinks." ++ name ++ ".selector is invalid"))
    let r ← ofOption (Regex.new ("^" ++ s)) (.regexErr ("^" ++ s))
    .ok (some r)

/-- The `ttl` block of a sink entry (lines 281-289). -/
def sinkTtlOf (name : String) (v : Yaml) : Except ConfigError Nat :=
  if (v.idx "ttl").is_badvalue then
    .ok 3600
  else do
    let t ← ofOption (v.idx "ttl").as_i64
      (.format ("sinks." ++ name ++ ".ttl should be a number"))
    ofOption (castU64 t) (.format ("sinks." ++ name ++ ".ttl should be a positive number"))

/-- The `size` block of a sink entry (lines 291-299). -/
def sinkSizeOf (name : String) (v : Yaml) : Except ConfigError Nat :=
  if (v.idx "size").is_badvalue then
    .ok 1073741824
  else do
    let z ← ofOption (v.idx "size").as_i64
      (.format ("sinks." ++ name ++ ".size should be a number"))
    ofOption (castU64 z) (.format ("sinks." ++ name ++ ".size should be a positive number"))

/-- One entry of the `sinks` map (lines 253-310). -/
def parseSinkEntry (k v : Yaml) : Except ConfigError Sink := do
  let name ← ofOption k.as_str (.format "sinks keys should be a string")
  let url ← ofOption (v.idx "url").as_str
    (.format ("sinks." ++ name ++ ".url is required and should be a string"))
  let token ← ofOption (v.idx "token").as_str
    (.format ("sinks." ++ name ++ ".token is required and should be a string"))
  let token_header ← sinkTokenHeaderOf name v
  let selector ← sinkSelectorOf name v
  let ttl ← sinkTtlOf name v
  let size ← sinkSizeOf name v
  .ok { name := name, url := url, token := token, token_header := token_header,
        selector := selector, ttl := ttl, size := size }

/-- Fold `parseSinkEntry` over the map's entries in order. -/
def parseSinkEntries : List (Yaml × Yaml) → Except ConfigError (List Sink)
  | [] => .ok []
  | (k, v) :: rest => do
    let s ← parseSinkEntry k v
    let ss ← parseSinkEntries rest
    .ok (s :: ss)

/-- The `sinks` slice of one document (lines 251-311). -/
def parseSinksDoc (doc : Yaml) : Except ConfigError (List Sink) :=
  if (doc.idx "sinks").is_badvalue then .ok []
  else do
    let entries ← ofOption (doc.idx "sinks").as_hash (.format "sinks should be a map")
    parseSinkEntries entries

/-- Apply the `sinks` section: parsed sinks are pushed onto the vector. -/
def applySinks (doc : Yaml) (c : Config) : Except ConfigError Config := do
  let ss ← parseSinksDoc doc
  .ok { c with sinks := c.sinks ++ ss }

/-- One `labels` entry must map a string key to a string value (lines 315-320). -/
def parseLabelEntries : List (Yaml × Yaml) → Except ConfigError (List (String × String))
  | [] => .ok []
  | (k, v) :: rest => do
    let name ← ofOption k.as_str (.format "labels keys should be a string")
    let value ← ofOption v.as_str (.format ("labels." ++ name ++ " value should be a string"))
    let restL ← parseLabelEntries rest
    .ok ((name, value) :: restL)

/-- `HashMap::insert`: replace the value of an existing key, else add. -/
def insertLabel (m : List (String × String)) (k v : String) : List (String × String) :=
  if m.any (fun kv => kv.1 == k) then
    m.map (fun kv => if kv.1 == k then (k, v) else kv)
  else m ++ [(k, v)]

/-- Insert every parsed label in order; a later key wins on collision. -/
def insertLabels (m : List (String × String)) : List (String × String) → List (String × String)
  | [] => m
  | (k, v) :: rest => insertLabels (insertLabel m k v) rest

/-- Apply the `labels` section (lines 313-321). -/
def applyLabels (doc : Yaml) (c : Config) : Except ConfigError Config :=
  if (doc.idx "labels").is_badvalue then .ok c
  else do
    let entries ← ofOption (doc.idx "labels").as_hash (.format "labels should be a map")
    let ps ← parseLabelEntries entries
    .ok { c with labels := insertLabels c.labels ps }

/-! The eight recognised `parameters` keys, each an independent overwrite step
(lines 324-390), applied in source order. -/

def stepSourceDir (p : Yaml) (params : Parameters) : Except ConfigError Parameters :=
  if (p.idx "source-dir").is_badvalue then .ok params
  else do
    let sd ← ofOption (p.idx "source-dir").as_str
      (.format "parameters.source-dir should be a string")
    .ok { params with source_dir := sd }

def stepSinkDir (p : Yaml) (params : Parameters) : Except ConfigError Parameters :=
  if (p.idx "sink-dir").is_badvalue then .ok params
  else do
    let sd ← ofOption (p.idx "sink-dir").as_str
      (.format "parameters.sink-dir should be a string")
    .ok { params with sink_dir := sd }

def stepScanPeriod (p : Yaml) (params : Parameters) : Except ConfigError Parameters :=
  if (p.idx "scan-period").is_badvalue then .ok params
  else do
    let n ← ofOption (p.idx "scan-period").as_i64
      (.format "parameters.scan-period should be a number")
    let sp ← ofOption (castU64 n) (.format "parameters.scan-period is invalid")
    .ok { params with scan_period := sp }

def stepBatchSize (p : Yaml) (params : Parameters) : Except ConfigError Parameters :=
  if (p.idx "batch-size").is_badvalue then .ok params
  else do
    let n ← ofOption (p.idx "batch-size").as_i64
      (.format "parameters.batch-size should be a number")
    let bs ← ofOption (castU64 n) (.format "parameters.batch-size is invalid")
    .ok { params with batch_size := bs }

def stepBatchCount (p : Yaml) (params : Parameters) : Except ConfigError Parameters :=
  if (p.idx "batch-count").is_badvalue then .ok params
  else do
    let n ← ofOption (p.idx "batch-count").as_i64
      (.format "parameters.batch-count should be a number")
    let bc ← ofOption (castU64 n) (.format "parameters.batch-count is invalid")
    .ok { params with batch_count := bc }

def stepLogFile (p : Yaml) (params : Parameters) : Except ConfigError Parameters :=
  if (p.idx "log-file").is_badvalue then .ok params
  else do
    let lf ← ofOption (p.idx "log-file").as_str
      (.format "parameters.log-file should be a string")
    .ok { params with log_file := lf }

def stepLogLevel (p : Yaml) (params : Parameters) : Except ConfigError Parameters :=
  if (p.idx "log-level").is_badvalue then .ok params
  else do
    let n ← ofOption (p.idx "log-level").as_i64
      (.format "parameters.log-level should be a number")
    let u ← ofOption (castU64 n) (.format "parameters.log-level is invalid")
    let ll ← ofOption (Level.from_usize u) (.format "parameters.log-level is invalid")
    .ok { params with log_level := ll }

def stepTimeout (p : Yaml) (params : Parameters) : Except ConfigError Parameters :=
  if (p.idx "timeout").is_badvalue then .ok params
  else do
    let n ← ofOption (p.idx "timeout").as_i64
      (.format "parameters.timeout should be a number")
    let t ← ofOption (castU64 n) (.format "parameters.timeout is invalid")
    .ok { params with timeout := t }

/-- The whole `parameters` section applied to the current parameters, with
the eight keys checked in source order. -/
def applyParams (p : Yaml) (params : Parameters) : Except ConfigError Parameters := do
  let params ← stepSourceDir p params
  let params ← stepSinkDir p params
  let params ← stepScanPeriod p params
  let params ← stepBatchSize p params
  let params ← stepBatchCount p params
  let params ← stepLogFile p params
  let params ← stepLogLevel p params
  stepTimeout p params

/-- Apply the `parameters` section of one document (lines 323-391). -/
def applyParameters (doc : Yaml) (c : Config) : Except ConfigError Config :=
  if (doc.idx "parameters").is_badvalue then .ok c
  else do
    let ps ← applyParams (doc.idx "parameters") c.parameters
    .ok { c with parameters := ps }

/-- Merge one YAML document into the accumulating configuration: the body of
the `for doc in &docs` loop of `load_path`. -/
def loadDoc (doc : Yaml) (c : Config) : Except ConfigError Config := do
  let c ← applySources doc c
  let c ← applySinks doc c
  let c ← applyLabels doc c
  applyParameters doc c

/-- `load_path` on an already scanned file: fold every document of the file
into the configuration (file open, read and YAML scanning are at the I/O
boundary and are not modelled). -/
def load_path (docs : List Yaml) (c : Config) : Except ConfigError Config :=
  match docs with
  | [] => .ok c
  | d :: rest => do
    let c ← loadDoc d c
    load_path rest c

/-- The hard-coded defaults of `load_config` (lines 152-166); `pkg` stands for
the compile-time `CARGO_PKG_NAME`. -/
def defaultConfig (pkg : String) : Config :=
  { sources := []
    sinks := []
    labels := []
    parameters :=
      { scan_period := 1000
        sink_dir := "sinks"
        source_dir := "sources"
        batch_size := 200000
        batch_count := 250
        log_file := pkg ++ ".log"
        log_level := .info
        timeout := 300 } }

/-- Apply `load_path` to each existing file in order. -/
def loadFiles : List (List Yaml) → Config → Except ConfigError Config
  | [], c => .ok c
  | f :: fs, c => do
    let c ← load_path f c
    loadFiles fs c

/-- `load_config` (lines 150-184), at the filesystem boundary: `files` is the
ordered list of files that exist and are applied — `[]` when the path is empty
and neither discovery file exists, `[etc, local]` when both discovery files
exist, and the singleton parse of an explicit path. -/
def load_config (pkg : String) (files : List (List Yaml)) : Except ConfigError Config :=
  loadFiles files (defaultConfig pkg)

/-! ## Auxiliary definitions for the verification -/

/-- Is `sub` a prefix of `s`? -/
def isSubListAt : List Char → List Char → Bool
  | [], _ => true
  | _ :: _, [] => false
  | a :: as, b :: bs => a == b && isSubListAt as bs

/-- Does `sub` occur as a contiguous run somewhere in `s`? -/
def subListAnywhere : List Char → List Char → Bool
  | [], sub => isSubListAt sub []
  | c :: rest, sub => isSubListAt sub (c :: rest) || subListAnywhere rest sub

/-- Substring containment on strings. -/
def strContains (s sub : String) : Bool :=
  subListAnywhere s.toList sub.toList

/-- The recognised `parameters` keys of §4.2. -/
def recognizedParamKeys : List String :=
  ["source-dir", "sink-dir", "scan-period", "batch-size", "batch-count",
   "log-file", "log-level", "timeout"]

/-- A one-source document whose entry `name` has a `url` and a `period`. -/
def periodDoc (name u : String) (p : Int) : Yaml :=
  .hash [(.str "sources", .hash [(.str name, .hash
    [(.str "url", .str u), (.str "period", .int p)])])]

/-- A document with one source whose metrics list is the single user pattern
of the spec's example. -/
def cpuPatternDoc : Yaml :=
  .hash [(.str "sources", .hash [(.str "cpu", .hash
    [(.str "url", .str "http://localhost:9100/metrics"), (.str "period", .int 1000),
     (.str "metrics", .arr [.str "cpu\\..*"])])])]

/-- The metric filter the loader builds from `cpuPatternDoc`. -/
def cpuDemoFilter : Option RegexSet :=
  match load_config "beamium" [[cpuPatternDoc]] with
  | .ok c =>
    match c.sources with
    | [s] => s.metrics
    | _ => none
  | .error _ => none

/-- A document with one source whose metrics key is present as an empty
sequence. -/
def emptyMetricsDoc : Yaml :=
  .hash [(.str "sources", .hash [(.str "cpu", .hash
    [(.str "url", .str "http://localhost:9100/metrics"), (.str "period", .int 1000),
     (.str "metrics", .arr [])])])]

/-- The metrics field of the source loaded from `emptyMetricsDoc`, wrapped in
an outer `some` that certifies the load succeeded with one source. -/
def emptyMetricsResult : Option (Option RegexSet) :=
  match load_config "beamium" [[emptyMetricsDoc]] with
  | .ok c =>
    match c.sources with
    | [s] => some s.metrics
    | _ => none
  | .error _ => none

/-- A file whose single document declares the source "a" with url "u1". -/
def fileA : List Yaml :=
  [.hash [(.str "sources", .hash [(.str "a", .hash
    [(.str "url", .str "u1"), (.str "period", .int 1)])])]]

/-- A file whose single document declares a source with the SAME name "a"
but url "u2". -/
def fileB : List Yaml :=
  [.hash [(.str "sources", .hash [(.str "a", .hash
    [(.str "url", .str "u2"), (.str "period", .int 2)])])]]

/-- The source loaded from `fileA`. -/
def srcA : Source :=
  { name := "a", url := "u1", period := 1, format := .prometheus, metrics := none }

/-- The source loaded from `fileB`. -/
def srcB : Source :=
  { name := "a", url := "u2", period := 2, format := .prometheus, metrics := none }

/-- A document setting only `parameters.batch-size`. -/
def batchSizeDoc (n : Int) : Yaml :=
  .hash [(.str "parameters", .hash [(.str "batch-size", .int n)])]

/-- The configuration produced by applying `batchSizeDoc 100` and then
`batchSizeDoc 42` onto the defaults. -/
def batchSizeResult : Config :=
  { defaultConfig "beamium" with parameters :=
      { (defaultConfig "beamium").parameters with batch_size := 42 } }

/-- The compiled form of the selector pattern "^foo". -/
def fooSelectorRegex : Regex :=
  { pattern := "^foo", anchored := true,
    re := Re.seq (Re.char 'f') (Re.seq (Re.char 'o') (Re.seq (Re.char 'o') Re.eps)) }

/-- The sink parsed from a concrete entry whose selector is "foo". -/
def fooSelectorSink : Sink :=
  { name := "w", url := "u", token := "t", token_header := "X-Warp10-Token",
    selector := some fooSelectorRegex, ttl := 3600, size := 1073741824 }

/-- The compiled form of the transformed metric pattern
"^(\S*)\s" ++ "cpu\..*". -/
def cpuFilterRegex : Regex :=
  { pattern := "^(\\S*)\\scpu\\..*", anchored := true,
    re := Re.seq (Re.group (Re.seq (Re.star Re.nspc) Re.eps))
      (Re.seq Re.spc (Re.seq (Re.char 'c') (Re.seq (Re.char 'p') (Re.seq (Re.char 'u')
        (Re.seq (Re.char '.') (Re.seq (Re.star Re.anyc) Re.eps)))))) }

/-- The source parsed from a concrete entry whose metrics list is
["cpu\..*"]. -/
def cpuFilterSource : Source :=
  { name := "cpu", url := "u", period := 1, format := .prometheus,
    metrics := some (RegexSet.mk [cpuFilterRegex]) }

/-- A document with one source whose metrics list holds the malformed regular
expression "(". -/
def badRegexDoc : Yaml :=
  .hash [(.str "sources", .hash [(.str "cpu", .hash
    [(.str "url", .str "http://localhost:9100/metrics"), (.str "period", .int 1000),
     (.str "metrics", .arr [.str "("])])])]

/-! ## Helper lemmas -/

theorem exceptBind_ok {α β : Type} {x : Except ConfigError α} {f : α → Except ConfigError β}
    {b : β} (h : x >>= f = .ok b) : ∃ a, x = .ok a ∧ f a = .ok b := by
  cases x with
  | error e => exact absurd h (by simp [Bind.bind, Except.bind])
  | ok a => exact ⟨a, rfl, by simpa [Bind.bind, Except.bind] using h⟩

theorem ofOption_ok {α : Type} {o : Option α} {e : ConfigError} {a : α}
    (h : ofOption o e = .ok a) : o = some a := by
  cases o with
  | none => exact absurd h (by simp [ofOption])
  | some x => simpa [ofOption] using h

theorem Regex.new_pattern {s : String} {r : Regex} (h : Regex.new s = some r) :
    r.pattern = s := by
  simp only [Regex.new] at h
  split at h
  · cases h; rfl
  · cases h

theorem compileMetricsList_strs (name : String) (pats : List String) :
    ∀ l, compileMetricsList name (pats.map Yaml.str) = .ok l →
      l = pats.map (fun p => "^(\\S*)\\s" ++ p) := by
  induction pats with
  | nil =>
    intro l h
    rw [List.map_nil, compileMetricsList] at h
    cases h
    rfl
  | cons p ps ih =>
    intro l h
    rw [List.map_cons, compileMetricsList] at h
    rcases exceptBind_ok h with ⟨sp, hsp, h⟩
    rcases exceptBind_ok h with ⟨r, hr, h⟩
    rcases exceptBind_ok h with ⟨restPats, hrest, h⟩
    cases h
    have hsp2 : sp = p := by
      have h2 := ofOption_ok hsp
      simp [Yaml.as_str] at h2
      exact h2.symm
    have hpat : r.pattern = p := by
      rw [← hsp2]
      exact Regex.new_pattern (ofOption_ok hr)
    rw [List.map_cons, hpat, ih restPats hrest]

theorem idx_of_badvalue {y : Yaml} (h : y.is_badvalue = true) (k : String) :
    y.idx k = .badValue := by
  cases y <;> first | rfl | simp [Yaml.is_badvalue] at h

theorem applySources_ok {d : Yaml} {c c1 : Config} (h : applySources d c = .ok c1) :
    ∃ ss, parseSourcesDoc d = .ok ss ∧ c1 = { c with sources := c.sources ++ ss } := by
  unfold applySources at h
  rcases exceptBind_ok h with ⟨ss, hss, h⟩
  cases h
  exact ⟨ss, hss, rfl⟩

theorem applySinks_ok {d : Yaml} {c c1 : Config} (h : applySinks d c = .ok c1) :
    ∃ ss, parseSinksDoc d = .ok ss ∧ c1 = { c with sinks := c.sinks ++ ss } := by
  unfold applySinks at h
  rcases exceptBind_ok h with ⟨ss, hss, h⟩
  cases h
  exact ⟨ss, hss, rfl⟩

theorem applyLabels_ok {d : Yaml} {c c1 : Config} (h : applyLabels d c = .ok c1) :
    ∃ lb, c1 = { c with labels := lb } := by
  unfold applyLabels at h
  by_cases hb : (d.idx "labels").is_badvalue = true
  · rw [if_pos hb] at h
    cases h
    exact ⟨c.labels, rfl⟩
  · rw [if_neg hb] at h
    rcases exceptBind_ok h with ⟨es, _, h⟩
    rcases exceptBind_ok h with ⟨ps, _, h⟩
    cases h
    exact ⟨insertLabels c.labels ps, rfl⟩

theorem applyParameters_ok {d : Yaml} {c c1 : Config} (h : applyParameters d c = .ok c1) :
    ∃ ps, c1 = { c with parameters := ps } ∧
      (((d.idx "parameters").is_badvalue = true ∧ ps = c.parameters) ∨
        applyParams (d.idx "parameters") c.parameters = .ok ps) := by
  unfold applyParameters at h
  by_cases hb : (d.idx "parameters").is_badvalue = true
  · rw [if_pos hb] at h
    cases h
    exact ⟨c.parameters, rfl, .inl ⟨hb, rfl⟩⟩
  · rw [if_neg hb] at h
    rcases exceptBind_ok h with ⟨ps, hps, h⟩
    cases h
    exact ⟨ps, rfl, .inr hps⟩

theorem loadDoc_ok {d : Yaml} {c c1 : Config} (h : loadDoc d c = .ok c1) :
    ∃ ss sk, parseSourcesDoc d = .ok ss ∧ parseSinksDoc d = .ok sk ∧
      c1.sources = c.sources ++ ss ∧ c1.sinks = c.sinks ++ sk ∧
      (((d.idx "parameters").is_badvalue = true ∧ c1.parameters = c.parameters) ∨
        applyParams (d.idx "parameters") c.parameters = .ok c1.parameters) := by
  unfold loadDoc at h
  rcases exceptBind_ok h with ⟨ca, ha, h⟩
  rcases exceptBind_ok h with ⟨cb, hb, h⟩
  rcases exceptBind_ok h with ⟨cc, hc, h⟩
  rcases applySources_ok ha with ⟨ss, hss, e1⟩
  rcases applySinks_ok hb with ⟨sk, hsk, e2⟩
  rcases applyLabels_ok hc with ⟨lb, e3⟩
  rcases applyParameters_ok h with ⟨ps, e4, hp⟩
  subst e1; subst e2; subst e3; subst e4
  exact ⟨ss, sk, hss, hsk, rfl, rfl, hp⟩

theorem load_path_sources_delta :
    ∀ (ds : List Yaml) (c c1 d0 d1 : Config),
      load_path ds c = .ok c1 → load_path ds d0 = .ok d1 →
      ∃ ss, c1.sources = c.sources ++ ss ∧ d1.sources = d0.sources ++ ss := by
  intro ds
  induction ds with
  | nil =>
    intro c c1 d0 d1 h h2
    cases h; cases h2
    exact ⟨[], by simp, by simp⟩
  | cons d rest ih =>
    intro c c1 d0 d1 h h2
    rw [load_path] at h h2
    rcases exceptBind_ok h with ⟨ca, ha, h⟩
    rcases exceptBind_ok h2 with ⟨cb, hb, h2⟩
    rcases loadDoc_ok ha with ⟨ssa, _, hpa, _, ea, _, _⟩
    rcases loadDoc_ok hb with ⟨ssb, _, hpb, _, eb, _, _⟩
    rw [hpa] at hpb
    cases hpb
    rcases ih ca c1 cb d1 h h2 with ⟨ss2, e1, e2⟩
    exact ⟨ssa ++ ss2, by rw [e1, ea, List.append_assoc],
           by rw [e2, eb, List.append_assoc]⟩

theorem stepSourceDir_fields {p : Yaml} {a b : Parameters} (h : stepSourceDir p a = .ok b) :
    b.batch_size = a.batch_size := by
  unfold stepSourceDir at h
  by_cases hb : (p.idx "source-dir").is_badvalue = true
  · rw [if_pos hb] at h; cases h; rfl
  · rw [if_neg hb] at h
    rcases exceptBind_ok h with ⟨sd, _, h⟩
    cases h; rfl

theorem stepSinkDir_fields {p : Yaml} {a b : Parameters} (h : stepSinkDir p a = .ok b) :
    b.batch_size = a.batch_size := by
  unfold stepSinkDir at h
  by_cases hb : (p.idx "sink-dir").is_badvalue = true
  · rw [if_pos hb] at h; cases h; rfl
  · rw [if_neg hb] at h
    rcases exceptBind_ok h with ⟨sd, _, h⟩
    cases h; rfl

theorem stepScanPeriod_fields {p : Yaml} {a b : Parameters} (h : stepScanPeriod p a = .ok b) :
    b.batch_size = a.batch_size := by
  unfold stepScanPeriod at h
  by_cases hb : (p.idx "scan-period").is_badvalue = true
  · rw [if_pos hb] at h; cases h; rfl
  · rw [if_neg hb] at h
    rcases exceptBind_ok h with ⟨n, _, h⟩
    rcases exceptBind_ok h with ⟨sp, _, h⟩
    cases h; rfl

theorem stepBatchCount_fields {p : Yaml} {a b : Parameters} (h : stepBatchCount p a = .ok b) :
    b.batch_size = a.batch_size := by
  unfold stepBatchCount at h
  by_cases hb : (p.idx "batch-count").is_badvalue = true
  · rw [if_pos hb] at h; cases h; rfl
  · rw [if_neg hb] at h
    rcases exceptBind_ok h with ⟨n, _, h⟩
    rcases exceptBind_ok h with ⟨bc, _, h⟩
    cases h; rfl

theorem stepLogFile_fields {p : Yaml} {a b : Parameters} (h : stepLogFile p a = .ok b) :
    b.batch_size = a.batch_size := by
  unfold stepLogFile at h
  by_cases hb : (p.idx "log-file").is_badvalue = true
  · rw [if_pos hb] at h; cases h; rfl
  · rw [if_neg hb] at h
    rcases exceptBind_ok h with ⟨lf, _, h⟩
    cases h; rfl

theorem stepLogLevel_fields {p : Yaml} {a b : Parameters} (h : stepLogLevel p a = .ok b) :
    b.batch_size = a.batch_size := by
  unfold stepLogLevel at h
  by_cases hb : (p.idx "log-level").is_badvalue = true
  · rw [if_pos hb] at h; cases h; rfl
  · rw [if_neg hb] at h
    rcases exceptBind_ok h with ⟨n, _, h⟩
    rcases exceptBind_ok h with ⟨u, _, h⟩
    rcases exceptBind_ok h with ⟨ll, _, h⟩
    cases h; rfl

theorem stepTimeout_fields {p : Yaml} {a b : Parameters} (h : stepTimeout p a = .ok b) :
    b.batch_size = a.batch_size := by
  unfold stepTimeout at h
  by_cases hb : (p.idx "timeout").is_badvalue = true
  · rw [if_pos hb] at h; cases h; rfl
  · rw [if_neg hb] at h
    rcases exceptBind_ok h with ⟨n, _, h⟩
    rcases exceptBind_ok h with ⟨t, _, h⟩
    cases h; rfl

theorem stepBatchSize_set {p : Yaml} {a b : Parameters} {n : Int}
    (h : stepBatchSize p a = .ok b) (hn : p.idx "batch-size" = Yaml.int n)
    (h0 : 0 ≤ n) (hw : n < 2 ^ 63) : b.batch_size = n.toNat := by
  unfold stepBatchSize at h
  rw [hn] at h
  have hbad : Yaml.is_badvalue (Yaml.int n) = false := rfl
  rw [hbad] at h
  simp only [Bool.false_eq_true, if_false] at h
  rcases exceptBind_ok h with ⟨m, hm, h⟩
  rcases exceptBind_ok h with ⟨bs, hbs, h⟩
  have hm2 : m = n := by
    have h2 := ofOption_ok hm
    have hin : -(2 ^ 63) ≤ n := le_trans (by norm_num) h0
    simp [Yaml.as_i64, hin, hw] at h2
    omega
  subst hm2
  have hbs2 : bs = m.toNat := by
    have h2 := ofOption_ok hbs
    simp [castU64, h0] at h2
    exact h2.symm
  subst hbs2
  cases h
  rfl

theorem applyParams_batch {p : Yaml} {a b : Parameters} {n : Int}
    (h : applyParams p a = .ok b) (hn : p.idx "batch-size" = Yaml.int n)
    (h0 : 0 ≤ n) (hw : n < 2 ^ 63) : b.batch_size = n.toNat := by
  unfold applyParams at h
  rcases exceptBind_ok h with ⟨a1, h1, h⟩
  rcases exceptBind_ok h with ⟨a2, h2, h⟩
  rcases exceptBind_ok h with ⟨a3, h3, h⟩
  rcases exceptBind_ok h with ⟨a4, h4, h⟩
  rcases exceptBind_ok h with ⟨a5, h5, h⟩
  rcases exceptBind_ok h with ⟨a6, h6, h⟩
  rcases exceptBind_ok h with ⟨a7, h7, h⟩
  rw [stepTimeout_fields h, stepLogLevel_fields h7, stepLogFile_fields h6,
      stepBatchCount_fields h5]
  exact stepBatchSize_set h4 hn h0 hw

theorem lookupEntries_append_miss (es : List (Yaml × Yaml)) (extra : Yaml × Yaml)
    (r : String) (h : extra.1.keyEq r = false) :
    lookupEntries (es ++ [extra]) r = lookupEntries es r := by
  induction es with
  | nil =>
    rcases extra with ⟨k, v⟩
    simp only [List.nil_append, lookupEntries]
    rw [h]
    simp
  | cons kv rest ih =>
    rcases kv with ⟨k, v⟩
    by_cases hk : k.keyEq r = true
    · simp only [List.cons_append, lookupEntries, hk, if_true]
    · simp only [List.cons_append, lookupEntries, hk, if_false, Bool.false_eq_true]
      exact ih

theorem lookupEntries_all_miss (es : List (Yaml × Yaml)) (r : String)
    (h : ∀ kv ∈ es, (kv.1).keyEq r = false) :
    lookupEntries es r = .badValue := by
  induction es with
  | nil => rfl
  | cons kv rest ih =>
    rcases kv with ⟨k, v⟩
    have hk := h (k, v) (by simp)
    simp only [lookupEntries, hk, Bool.false_eq_true, if_false]
    exact ih fun kv hm => h kv (by simp [hm])

theorem stepSourceDir_congr {p1 p2 : Yaml} (h : p1.idx "source-dir" = p2.idx "source-dir")
    (params : Parameters) : stepSourceDir p1 params = stepSourceDir p2 params := by
  unfold stepSourceDir
  rw [h]

theorem stepSinkDir_congr {p1 p2 : Yaml} (h : p1.idx "sink-dir" = p2.idx "sink-dir")
    (params : Parameters) : stepSinkDir p1 params = stepSinkDir p2 params := by
  unfold stepSinkDir
  rw [h]

theorem stepScanPeriod_congr {p1 p2 : Yaml} (h : p1.idx "scan-period" = p2.idx "scan-period")
    (params : Parameters) : stepScanPeriod p1 params = stepScanPeriod p2 params := by
  unfold stepScanPeriod
  rw [h]

theorem stepBatchSize_congr {p1 p2 : Yaml} (h : p1.idx "batch-size" = p2.idx "batch-size")
    (params : Parameters) : stepBatchSize p1 params = stepBatchSize p2 params := by
  unfold stepBatchSize
  rw [h]

theorem stepBatchCount_congr {p1 p2 : Yaml} (h : p1.idx "batch-count" = p2.idx "batch-count")
    (params : Parameters) : stepBatchCount p1 params = stepBatchCount p2 params := by
  unfold stepBatchCount
  rw [h]

theorem stepLogFile_congr {p1 p2 : Yaml} (h : p1.idx "log-file" = p2.idx "log-file")
    (params : Parameters) : stepLogFile p1 params = stepLogFile p2 params := by
  unfold stepLogFile
  rw [h]

theorem stepLogLevel_congr {p1 p2 : Yaml} (h : p1.idx "log-level" = p2.idx "log-level")
    (params : Parameters) : stepLogLevel p1 params = stepLogLevel p2 params := by
  unfold stepLogLevel
  rw [h]

theorem stepTimeout_congr {p1 p2 : Yaml} (h : p1.idx "timeout" = p2.idx "timeout")
    (params : Parameters) : stepTimeout p1 params = stepTimeout p2 params := by
  unfold stepTimeout
  rw [h]

theorem applyParams_congr {p1 p2 : Yaml}
    (h : ∀ r ∈ recognizedParamKeys, p1.idx r = p2.idx r) (params : Parameters) :
    applyParams p1 params = applyParams p2 params := by
  have h1 := h "source-dir" (by simp [recognizedParamKeys])
  have h2 := h "sink-dir" (by simp [recognizedParamKeys])
  have h3 := h "scan-period" (by simp [recognizedParamKeys])
  have h4 := h "batch-size" (by simp [recognizedParamKeys])
  have h5 := h "batch-count" (by simp [recognizedParamKeys])
  have h6 := h "log-file" (by simp [recognizedParamKeys])
  have h7 := h "log-level" (by simp [recognizedParamKeys])
  have h8 := h "timeout" (by simp [recognizedParamKeys])
  unfold applyParams
  simp only [stepSourceDir_congr h1, stepSinkDir_congr h2, stepScanPeriod_congr h3,
    stepBatchSize_congr h4, stepBatchCount_congr h5, stepLogFile_congr h6,
    stepLogLevel_congr h7, stepTimeout_congr h8]

theorem applyParams_skip {p : Yaml} (params : Parameters)
    (h : ∀ r ∈ recognizedParamKeys, p.idx r = .badValue) :
    applyParams p params = .ok params := by
  have h1 := h "source-dir" (by simp [recognizedParamKeys])
  have h2 := h "sink-dir" (by simp [recognizedParamKeys])
  have h3 := h "scan-period" (by simp [recognizedParamKeys])
  have h4 := h "batch-size" (by simp [recognizedParamKeys])
  have h5 := h "batch-count" (by simp [recognizedParamKeys])
  have h6 := h "log-file" (by simp [recognizedParamKeys])
  have h7 := h "log-level" (by simp [recognizedParamKeys])
  have h8 := h "timeout" (by simp [recognizedParamKeys])
  unfold applyParams stepSourceDir stepSinkDir stepScanPeriod stepBatchSize
    stepBatchCount stepLogFile stepLogLevel stepTimeout
  rw [h1, h2, h3, h4, h5, h6, h7, h8]
  rfl

/-! ## Claim theorems -/

/-- C4: `load_config` with an empty path and neither discovery file present
returns `Ok` of exactly the hard-coded defaults: empty sources, sinks and
labels, and Parameters with scan_period 1000, sink_dir "sinks", source_dir
"sources", batch_size 200000, batch_count 250, log_file "<program-name>.log",
log_level Info, timeout 300. -/
theorem c4_empty_path_defaults (pkg : String) :
    load_config pkg [] = .ok
      { sources := [], sinks := [], labels := []
        parameters :=
          { scan_period := 1000, sink_dir := "sinks", source_dir := "sources"
            batch_size := 200000, batch_count := 250, log_file := pkg ++ ".log"
            log_level := .info, timeout := 300 } } := rfl

/-- C7: a valid source entry lacking `format` gets `SourceFormat.prometheus`,
and a valid sink entry lacking `ttl`, `size` and `token-header` gets 3600,
1073741824 and "X-Warp10-Token" respectively. -/
theorem c7_optional_defaults (ks vs kk vk : Yaml) (s : Source) (t : Sink)
    (hs : parseSourceEntry ks vs = .ok s)
    (hf : (vs.idx "format").is_badvalue = true)
    (ht : parseSinkEntry kk vk = .ok t)
    (h1 : (vk.idx "ttl").is_badvalue = true)
    (h2 : (vk.idx "size").is_badvalue = true)
    (h3 : (vk.idx "token-header").is_badvalue = true) :
    s.format = SourceFormat.prometheus ∧ t.ttl = 3600 ∧ t.size = 1073741824 ∧
      t.token_header = "X-Warp10-Token" := by
  unfold parseSourceEntry at hs
  rcases exceptBind_ok hs with ⟨name, _, hs⟩
  rcases exceptBind_ok hs with ⟨url, _, hs⟩
  rcases exceptBind_ok hs with ⟨pI, _, hs⟩
  rcases exceptBind_ok hs with ⟨per, _, hs⟩
  rcases exceptBind_ok hs with ⟨fmt, hfmt, hs⟩
  rcases exceptBind_ok hs with ⟨mets, _, hs⟩
  unfold sourceFormatOf at hfmt
  rw [hf, if_pos rfl] at hfmt
  unfold parseSinkEntry at ht
  rcases exceptBind_ok ht with ⟨nameK, _, ht⟩
  rcases exceptBind_ok ht with ⟨urlK, _, ht⟩
  rcases exceptBind_ok ht with ⟨tok, _, ht⟩
  rcases exceptBind_ok ht with ⟨th, hth, ht⟩
  rcases exceptBind_ok ht with ⟨selv, _, ht⟩
  rcases exceptBind_ok ht with ⟨ttlv, httl, ht⟩
  rcases exceptBind_ok ht with ⟨sizev, hsize, ht⟩
  unfold sinkTokenHeaderOf at hth
  rw [h3, if_pos rfl] at hth
  unfold sinkTtlOf at httl
  rw [h1, if_pos rfl] at httl
  unfold sinkSizeOf at hsize
  rw [h2, if_pos rfl] at hsize
  cases hs
  cases ht
  cases hfmt
  cases hth
  cases httl
  cases hsize
  exact ⟨rfl, rfl, rfl, rfl⟩

theorem sourceMetricsOf_absent (name : String) {v : Yaml}
    (hb : (v.idx "metrics").is_badvalue = true) :
    sourceMetricsOf name v = .ok none := by
  unfold sourceMetricsOf
  rw [hb, if_pos rfl]

theorem sourceMetricsOf_strs (name : String) {v : Yaml} (pats : List String)
    (hm : v.idx "metrics" = Yaml.arr (pats.map Yaml.str)) {o : Option RegexSet}
    (h : sourceMetricsOf name v = .ok o) :
    ∃ rl, o = some (RegexSet.mk rl) ∧
      regexSetNewE (pats.map fun p => "^(\\S*)\\s" ++ p) = .ok rl := by
  unfold sourceMetricsOf at h
  rw [hm, show Yaml.is_badvalue (Yaml.arr (pats.map Yaml.str)) = false from rfl,
      if_neg Bool.false_ne_true] at h
  rcases exceptBind_ok h with ⟨values, hv, h⟩
  have hv2 : values = pats.map Yaml.str := by
    have h2 := ofOption_ok hv
    simp [Yaml.as_vec] at h2
    exact h2.symm
  subst hv2
  rcases exceptBind_ok h with ⟨pl, hpl, h⟩
  rcases exceptBind_ok h with ⟨rl, hrl, h⟩
  cases h
  have hpl2 := compileMetricsList_strs name pats pl hpl
  subst hpl2
  exact ⟨rl, rfl, hrl⟩

theorem sinkSelectorOf_str (name : String) {v : Yaml} {sel : String}
    (hs : v.idx "selector" = Yaml.str sel) {o : Option Regex}
    (h : sinkSelectorOf name v = .ok o) :
    ∃ r, o = some r ∧ Regex.new ("^" ++ sel) = some r := by
  unfold sinkSelectorOf at h
  rw [hs, show Yaml.is_badvalue (Yaml.str sel) = false from rfl,
      if_neg Bool.false_ne_true] at h
  rcases exceptBind_ok h with ⟨s2, hs2, h⟩
  rcases exceptBind_ok h with ⟨r, hr, h⟩
  have hs3 : s2 = sel := by
    have h2 := ofOption_ok hs2
    simp [Yaml.as_str] at h2
    exact h2.symm
  have h3 : (Except.ok (some r) : Except ConfigError (Option Regex)) = .ok o := h
  injection h3 with h4
  have h5 := ofOption_ok hr
  rw [hs3] at h5
  exact ⟨r, h4.symm, h5⟩

/-- C6 (amended): a valid source entry whose `metrics` key is absent gets no
filter (`none`); but a `metrics` key present as an empty sequence gets
`some` of an empty pattern set, which matches no subject at all — not an
absent filter. -/
theorem c6_empty_metrics (k1 v1 k2 v2 : Yaml) (s1 s2 : Source)
    (h1 : parseSourceEntry k1 v1 = .ok s1)
    (hb : (v1.idx "metrics").is_badvalue = true)
    (h2 : parseSourceEntry k2 v2 = .ok s2)
    (he : v2.idx "metrics" = Yaml.arr []) :
    s1.metrics = none ∧ s2.metrics = some (RegexSet.mk []) ∧
      ∀ subj, (RegexSet.mk []).is_match subj = false := by
  unfold parseSourceEntry at h1
  rcases exceptBind_ok h1 with ⟨n1, _, h1⟩
  rcases exceptBind_ok h1 with ⟨u1, _, h1⟩
  rcases exceptBind_ok h1 with ⟨pa, _, h1⟩
  rcases exceptBind_ok h1 with ⟨pb, _, h1⟩
  rcases exceptBind_ok h1 with ⟨f1, _, h1⟩
  rcases exceptBind_ok h1 with ⟨m1, hm1, h1⟩
  rw [sourceMetricsOf_absent n1 hb] at hm1
  unfold parseSourceEntry at h2
  rcases exceptBind_ok h2 with ⟨n2, _, h2⟩
  rcases exceptBind_ok h2 with ⟨u2, _, h2⟩
  rcases exceptBind_ok h2 with ⟨pc, _, h2⟩
  rcases exceptBind_ok h2 with ⟨pd, _, h2⟩
  rcases exceptBind_ok h2 with ⟨f2, _, h2⟩
  rcases exceptBind_ok h2 with ⟨m2, hm2, h2⟩
  have he2 : v2.idx "metrics" = Yaml.arr (([] : List String).map Yaml.str) := he
  rcases sourceMetricsOf_strs n2 [] he2 hm2 with ⟨rl, hrl, hnew⟩
  have hrl2 : rl = [] := by
    cases hnew
    rfl
  cases hm1
  cases h1
  cases h2
  subst hrl
  subst hrl2
  exact ⟨rfl, rfl, fun subj => rfl⟩

/-- Witness for C6 at a concrete entry without `metrics` and one with
`metrics: []`. -/
theorem c6_empty_metrics_witness :
    ({ name := "a", url := "u", period := 1, format := .prometheus,
       metrics := none } : Source).metrics = none ∧
    ({ name := "b", url := "u", period := 1, format := .prometheus,
       metrics := some (RegexSet.mk []) } : Source).metrics = some (RegexSet.mk []) ∧
    ∀ subj, (RegexSet.mk []).is_match subj = false :=
  c6_empty_metrics (.str "a") (.hash [(.str "url", .str "u"), (.str "period", .int 1)])
    (.str "b") (.hash [(.str "url", .str "u"), (.str "period", .int 1),
      (.str "metrics", .arr [])])
    { name := "a", url := "u", period := 1, format := .prometheus, metrics := none }
    { name := "b", url := "u", period := 1, format := .prometheus,
      metrics := some (RegexSet.mk []) }
    rfl rfl rfl rfl

/-- C6 counterexample: loading a document whose source has `metrics: []`
produces a source whose filter is `some` of an empty set — present, not
absent as the claim states. -/
theorem c6_counterexample : emptyMetricsResult = some (some (RegexSet.mk [])) := by rfl

/-- Witness for C7 at a concrete source entry without `format` and a concrete
sink entry without `ttl`, `size` or `token-header`. -/
theorem c7_optional_defaults_witness :
    ({ name := "s1", url := "u", period := 1, format := .prometheus,
       metrics := none } : Source).format = SourceFormat.prometheus ∧
    ({ name := "k1", url := "u", token := "t", token_header := "X-Warp10-Token",
       selector := none, ttl := 3600, size := 1073741824 } : Sink).ttl = 3600 ∧
    ({ name := "k1", url := "u", token := "t", token_header := "X-Warp10-Token",
       selector := none, ttl := 3600, size := 1073741824 } : Sink).size = 1073741824 ∧
    ({ name := "k1", url := "u", token := "t", token_header := "X-Warp10-Token",
       selector := none, ttl := 3600, size := 1073741824 } : Sink).token_header
      = "X-Warp10-Token" :=
  c7_optional_defaults (.str "s1") (.hash [(.str "url", .str "u"), (.str "period", .int 1)])
    (.str "k1") (.hash [(.str "url", .str "u"), (.str "token", .str "t")])
    { name := "s1", url := "u", period := 1, format := .prometheus, metrics := none }
    { name := "k1", url := "u", token := "t", token_header := "X-Warp10-Token",
      selector := none, ttl := 3600, size := 1073741824 }
    rfl rfl rfl rfl rfl rfl

/-- C5: a sink's selector string is compiled as "^" + input — anchored at the
start, unanchored at the end; the selector compiled from "foo" matches
"foobar" and "foo" but not "xfoo". -/
theorem c5_selector_anchoring (k v : Yaml) (sel : String) (t : Sink)
    (h : parseSinkEntry k v = .ok t) (hs : v.idx "selector" = Yaml.str sel) :
    (∃ r, t.selector = some r ∧ Regex.new ("^" ++ sel) = some r) ∧
      (Regex.new ("^" ++ "foo")).map (fun r => r.is_match "foobar") = some true ∧
      (Regex.new ("^" ++ "foo")).map (fun r => r.is_match "foo") = some true ∧
      (Regex.new ("^" ++ "foo")).map (fun r => r.is_match "xfoo") = some false := by
  refine ⟨?_, by rfl, by rfl, by rfl⟩
  unfold parseSinkEntry at h
  rcases exceptBind_ok h with ⟨name, _, h⟩
  rcases exceptBind_ok h with ⟨url, _, h⟩
  rcases exceptBind_ok h with ⟨tok, _, h⟩
  rcases exceptBind_ok h with ⟨th, _, h⟩
  rcases exceptBind_ok h with ⟨selv, hsel, h⟩
  rcases exceptBind_ok h with ⟨ttlv, _, h⟩
  rcases exceptBind_ok h with ⟨sizev, _, h⟩
  cases h
  exact sinkSelectorOf_str name hs hsel

/-- Witness for C5 at a concrete sink entry whose selector is "foo". -/
theorem c5_selector_anchoring_witness :
    (∃ r, fooSelectorSink.selector = some r ∧ Regex.new ("^" ++ "foo") = some r) ∧
      (Regex.new ("^" ++ "foo")).map (fun r => r.is_match "foobar") = some true ∧
      (Regex.new ("^" ++ "foo")).map (fun r => r.is_match "foo") = some true ∧
      (Regex.new ("^" ++ "foo")).map (fun r => r.is_match "xfoo") = some false :=
  c5_selector_anchoring (.str "w")
    (.hash [(.str "url", .str "u"), (.str "token", .str "t"),
      (.str "selector", .str "foo")])
    "foo" fooSelectorSink rfl rfl

/-- C1 (amended): each metrics pattern is transformed to "^(\S*)\s" + input
before compilation and all transformed patterns are compiled into one set
with matches-if-ANY semantics; however, the filter compiled from the single
pattern "cpu\..*" matches a subject whose metric name is the SECOND
whitespace-delimited token (such as "1484828198// cpu.load 42") and matches
neither "cpu.load 1 2 3" nor "mem.free 1 2 3". -/
theorem c1_metric_filter_transform (k v : Yaml) (pats : List String) (s : Source)
    (h : parseSourceEntry k v = .ok s)
    (hm : v.idx "metrics" = Yaml.arr (pats.map Yaml.str)) :
    (∃ rl, s.metrics = some (RegexSet.mk rl) ∧
        regexSetNewE (pats.map fun p => "^(\\S*)\\s" ++ p) = .ok rl) ∧
      (∀ rs subj, RegexSet.is_match rs subj = rs.regexes.any fun r => r.is_match subj) ∧
      (Regex.new ("^(\\S*)\\s" ++ "cpu\\..*")).map
        (fun r => r.is_match "1484828198// cpu.load 42") = some true ∧
      (Regex.new ("^(\\S*)\\s" ++ "cpu\\..*")).map
        (fun r => r.is_match "cpu.load 1 2 3") = some false ∧
      (Regex.new ("^(\\S*)\\s" ++ "cpu\\..*")).map
        (fun r => r.is_match "mem.free 1 2 3") = some false := by
  refine ⟨?_, fun rs subj => rfl, by rfl, by rfl, by rfl⟩
  unfold parseSourceEntry at h
  rcases exceptBind_ok h with ⟨name, _, h⟩
  rcases exceptBind_ok h with ⟨url, _, h⟩
  rcases exceptBind_ok h with ⟨pI, _, h⟩
  rcases exceptBind_ok h with ⟨per, _, h⟩
  rcases exceptBind_ok h with ⟨fmt, _, h⟩
  rcases exceptBind_ok h with ⟨mets, hmets, h⟩
  cases h
  exact sourceMetricsOf_strs name pats hm hmets

/-- C1 counterexample: through the full loader, the filter compiled from the
single user pattern "cpu\..*" does NOT match the subject "cpu.load 1 2 3",
contradicting the claim's concrete example. -/
theorem c1_counterexample :
    cpuDemoFilter.map (fun rs => rs.is_match "cpu.load 1 2 3") = some false := by rfl

/-- Witness for C1 at a concrete source entry whose metrics list is the
single pattern "cpu\..*". -/
theorem c1_metric_filter_transform_witness :
    (∃ rl, cpuFilterSource.metrics = some (RegexSet.mk rl) ∧
        regexSetNewE ((["cpu\\..*"] : List String).map fun p => "^(\\S*)\\s" ++ p)
          = .ok rl) ∧
      (∀ rs subj, RegexSet.is_match rs subj = rs.regexes.any fun r => r.is_match subj) ∧
      (Regex.new ("^(\\S*)\\s" ++ "cpu\\..*")).map
        (fun r => r.is_match "1484828198// cpu.load 42") = some true ∧
      (Regex.new ("^(\\S*)\\s" ++ "cpu\\..*")).map
        (fun r => r.is_match "cpu.load 1 2 3") = some false ∧
      (Regex.new ("^(\\S*)\\s" ++ "cpu\\..*")).map
        (fun r => r.is_match "mem.free 1 2 3") = some false :=
  c1_metric_filter_transform (.str "cpu")
    (.hash [(.str "url", .str "u"), (.str "period", .int 1),
      (.str "metrics", .arr [.str "cpu\\..*"])])
    ["cpu\\..*"] cpuFilterSource rfl rfl

/-- C9 (amended): a type-coercion failure names the offending dotted path
(for example a negative `sources.X.period` yields the error message
"sources.X.period is invalid"); but a malformed regular expression in a
source's metrics list or a sink's selector yields a Regex-kind error that
carries only the regex library's description of the pattern — it names
neither the configuration entry nor the field. -/
theorem c9_error_paths (name u pat sel : String)
    (hbad : Regex.new pat = none) (hbad2 : Regex.new ("^" ++ sel) = none) :
    (∀ p : Int, -(2 ^ 63) ≤ p → p < 0 →
      parseSourceEntry (.str name) (.hash [(.str "url", .str u), (.str "period", .int p)])
        = .error (.format ("sources." ++ name ++ ".period is invalid"))) ∧
    parseSourceEntry (.str name) (.hash [(.str "url", .str u), (.str "period", .int 1),
        (.str "metrics", .arr [.str pat])])
      = .error (.regexErr pat) ∧
    parseSinkEntry (.str name) (.hash [(.str "url", .str u), (.str "token", .str u),
        (.str "selector", .str sel)])
      = .error (.regexErr ("^" ++ sel)) ∧
    (∀ q : String, ConfigError.message (.regexErr q) = "regex parse error: " ++ q) := by
  refine ⟨?_, ?_, ?_, fun q => rfl⟩
  · intro p hin hneg
    have hlt : p < 2 ^ 63 := hneg.trans (by norm_num)
    have hnn : ¬(0 ≤ p) := not_le.mpr hneg
    norm_num at hin hlt
    simp [parseSourceEntry, ofOption, Yaml.idx, lookupEntries, Yaml.keyEq, Yaml.as_str,
      Yaml.as_i64, castU64, hin, hlt, hnn, Bind.bind, Except.bind]
  · simp [parseSourceEntry, sourceFormatOf, sourceMetricsOf, compileMetricsList,
      ofOption, Yaml.idx, lookupEntries, Yaml.keyEq, Yaml.as_str, Yaml.as_i64,
      Yaml.as_vec, Yaml.is_badvalue, castU64, hbad, Bind.bind, Except.bind]
  · simp [parseSinkEntry, sinkTokenHeaderOf, sinkSelectorOf, ofOption, Yaml.idx,
      lookupEntries, Yaml.keyEq, Yaml.as_str, Yaml.is_badvalue, hbad2,
      Bind.bind, Except.bind]

/-- C9 counterexample: loading a document whose source "cpu" has the
malformed metrics pattern "(" produces a Regex-kind error whose rendered
message contains neither the entry name "cpu" nor the field name "metrics". -/
theorem c9_counterexample :
    load_config "beamium" [[badRegexDoc]] = .error (.regexErr "(") ∧
      strContains (ConfigError.message (.regexErr "(")) "cpu" = false ∧
      strContains (ConfigError.message (.regexErr "(")) "metrics" = false :=
  ⟨rfl, rfl, rfl⟩

/-- Witness for C9 at the entry name "cpu" with malformed pattern "(",
plus the negative-period instance at -1. -/
theorem c9_error_paths_witness :
    parseSourceEntry (.str "cpu")
        (.hash [(.str "url", .str "u"), (.str "period", .int (-1))])
      = .error (.format ("sources." ++ "cpu" ++ ".period is invalid")) ∧
    parseSourceEntry (.str "cpu")
        (.hash [(.str "url", .str "u"), (.str "period", .int 1),
          (.str "metrics", .arr [.str "("])])
      = .error (.regexErr "(") ∧
    parseSinkEntry (.str "cpu")
        (.hash [(.str "url", .str "u"), (.str "token", .str "u"),
          (.str "selector", .str "(")])
      = .error (.regexErr ("^" ++ "(")) :=
  ⟨(c9_error_paths "cpu" "u" "(" "(" rfl rfl).1 (-1) (by norm_num) (by norm_num),
   (c9_error_paths "cpu" "u" "(" "(" rfl rfl).2.1,
   (c9_error_paths "cpu" "u" "(" "(" rfl rfl).2.2.1⟩

/-- C8: a source entry X whose `period` is a negative integer (such as -1)
yields the validation error "sources.X.period is invalid", and one whose
`period` exceeds the signed 64-bit width fails the integer coercion with
"sources.X.period is required and should be a number"; in both cases
`load_config` returns the error and no configuration. -/
theorem c8_period_validation (pkg name u : String) (p : Int)
    (hneg : p < 0) (hin : -(2 ^ 63) ≤ p) :
    load_config pkg [[periodDoc name u p]]
        = .error (.format ("sources." ++ name ++ ".period is invalid")) ∧
      ∀ q : Int, 2 ^ 63 ≤ q →
        load_config pkg [[periodDoc name u q]]
          = .error (.format
            ("sources." ++ name ++ ".period is required and should be a number")) := by
  constructor
  · have hlt : p < 2 ^ 63 := hneg.trans (by norm_num)
    have hnn : ¬(0 ≤ p) := not_le.mpr hneg
    norm_num at hin hlt
    simp [load_config, loadFiles, load_path, loadDoc, applySources,
      parseSourcesDoc, parseSourceEntries, parseSourceEntry, periodDoc,
      ofOption, Yaml.idx, lookupEntries, Yaml.keyEq, Yaml.as_str, Yaml.as_hash,
      Yaml.is_badvalue, Yaml.as_i64, castU64, hin, hlt, hnn, Bind.bind, Except.bind]
  · intro q hq
    norm_num at hq
    have hnlt : ¬(q < 9223372036854775808) := not_lt.mpr hq
    simp [load_config, loadFiles, load_path, loadDoc, applySources,
      parseSourcesDoc, parseSourceEntries, parseSourceEntry, periodDoc,
      ofOption, Yaml.idx, lookupEntries, Yaml.keyEq, Yaml.as_str, Yaml.as_hash,
      Yaml.is_badvalue, Yaml.as_i64, castU64, hnlt, Bind.bind, Except.bind]

/-- Witness for C8 at the source name "X" and period -1 (and width overflow
at 2^63). -/
theorem c8_period_validation_witness :
    load_config "beamium" [[periodDoc "X" "http://x" (-1)]]
        = .error (.format ("sources." ++ "X" ++ ".period is invalid")) ∧
      ∀ q : Int, 2 ^ 63 ≤ q →
        load_config "beamium" [[periodDoc "X" "http://x" q]]
          = .error (.format
            ("sources." ++ "X" ++ ".period is required and should be a number")) :=
  c8_period_validation "beamium" "X" "http://x" (-1) (by norm_num) (by norm_num)

/-- C10: `parameters` keys outside the recognized set are silently ignored:
adding an unrecognized key to a parameters mapping changes nothing in the
merge of that section, and a document whose parameters mapping holds only
unrecognized keys merges with no error and no change to the Configuration. -/
theorem c10_unknown_parameter_keys (es : List (Yaml × Yaml)) (extra : Yaml × Yaml)
    (params : Parameters) (c : Config)
    (hk : ∀ r ∈ recognizedParamKeys, extra.1.keyEq r = false) :
    applyParams (Yaml.hash (es ++ [extra])) params = applyParams (Yaml.hash es) params ∧
      ((∀ kv ∈ es ++ [extra], ∀ r ∈ recognizedParamKeys, (kv.1).keyEq r = false) →
        loadDoc (Yaml.hash [(.str "parameters", .hash (es ++ [extra]))]) c = .ok c) := by
  constructor
  · refine applyParams_congr (fun r hr => ?_) params
    exact lookupEntries_append_miss es extra r (hk r hr)
  · intro hall
    have hskip : applyParams (Yaml.hash (es ++ [extra])) c.parameters
        = .ok c.parameters := by
      refine applyParams_skip c.parameters (fun r hr => ?_)
      exact lookupEntries_all_miss _ r (fun kv hm => hall kv hm r hr)
    unfold loadDoc applySources applySinks applyLabels applyParameters
      parseSourcesDoc parseSinksDoc
    simp [Yaml.idx, lookupEntries, Yaml.keyEq, Yaml.is_badvalue,
      Bind.bind, Except.bind, hskip]

/-- Witness for C10 with the single unrecognized key "bogus". -/
theorem c10_unknown_parameter_keys_witness :
    applyParams (Yaml.hash ([] ++ [(Yaml.str "bogus", Yaml.int 5)]))
        (defaultConfig "beamium").parameters
      = applyParams (Yaml.hash []) (defaultConfig "beamium").parameters ∧
      ((∀ kv ∈ ([] : List (Yaml × Yaml)) ++ [(Yaml.str "bogus", Yaml.int 5)],
          ∀ r ∈ recognizedParamKeys, (kv.1).keyEq r = false) →
        loadDoc (Yaml.hash [(.str "parameters",
            .hash ([] ++ [(Yaml.str "bogus", Yaml.int 5)]))])
          (defaultConfig "beamium") = .ok (defaultConfig "beamium")) :=
  c10_unknown_parameter_keys [] (Yaml.str "bogus", Yaml.int 5)
    (defaultConfig "beamium").parameters (defaultConfig "beamium")
    (fun r hr => by fin_cases hr <;> rfl)

theorem exceptOk_inj {α : Type} {a b : α}
    (h : (Except.ok a : Except ConfigError α) = .ok b) : a = b := by
  injection h

/-- C2: when two configuration files that each load successfully (each
declaring at least one source) are applied in sequence, the merged
configuration holds every source of both files in order — the first file's
sources followed by the second's, counts adding — even when entries share a
name: sources are appended, never replaced or deduplicated. -/
theorem c2_sources_append (pkg : String) (f1 f2 : List Yaml) (c c1 c2 : Config)
    (h1 : load_config pkg [f1] = .ok c1) (h2 : load_config pkg [f2] = .ok c2)
    (h : load_config pkg [f1, f2] = .ok c)
    (_hne1 : c1.sources ≠ []) (_hne2 : c2.sources ≠ []) :
    c.sources = c1.sources ++ c2.sources ∧
      c.sources.length = c1.sources.length + c2.sources.length := by
  unfold load_config at h1 h2 h
  simp only [loadFiles] at h1 h2 h
  rcases exceptBind_ok h1 with ⟨a1, ha1, h1⟩
  have e1 : c1 = a1 := (exceptOk_inj h1).symm
  subst e1
  rcases exceptBind_ok h2 with ⟨a2, ha2, h2⟩
  have e2 : c2 = a2 := (exceptOk_inj h2).symm
  subst e2
  rcases exceptBind_ok h with ⟨b1, hb1, h⟩
  rw [ha1] at hb1
  have e3 : c1 = b1 := exceptOk_inj hb1
  rcases exceptBind_ok h with ⟨b2, hb2, h⟩
  have e4 : b2 = c := exceptOk_inj h
  rw [← e3] at hb2
  rw [e4] at hb2
  rcases load_path_sources_delta f2 c1 c (defaultConfig pkg) c2 hb2 ha2 with ⟨ss, d1, d2⟩
  have d3 : c2.sources = ss := by
    rw [d2]
    rfl
  subst d3
  exact ⟨d1, by rw [d1, List.length_append]⟩

/-- Witness for C2 at two concrete one-source files sharing the name "a". -/
theorem c2_sources_append_witness :
    ({ defaultConfig "beamium" with sources := [srcA, srcB] } : Config).sources
        = ({ defaultConfig "beamium" with sources := [srcA] } : Config).sources
          ++ ({ defaultConfig "beamium" with sources := [srcB] } : Config).sources ∧
      ({ defaultConfig "beamium" with sources := [srcA, srcB] } : Config).sources.length
        = ({ defaultConfig "beamium" with sources := [srcA] } : Config).sources.length
          + ({ defaultConfig "beamium" with sources := [srcB] } : Config).sources.length :=
  c2_sources_append "beamium" fileA fileB
    { defaultConfig "beamium" with sources := [srcA, srcB] }
    { defaultConfig "beamium" with sources := [srcA] }
    { defaultConfig "beamium" with sources := [srcB] }
    rfl rfl rfl (by simp) (by simp)

/-- C3: when two files both set the scalar field `parameters.batch-size`, the
value of the later-applied file is the one in the final configuration —
scalar Parameters fields are overwritten wholesale by each later file that
specifies them. -/
theorem c3_later_file_wins (pkg : String) (d1 d2 : Yaml) (c : Config) (m n : Int)
    (_hm : (d1.idx "parameters").idx "batch-size" = Yaml.int m)
    (hn : (d2.idx "parameters").idx "batch-size" = Yaml.int n)
    (h0 : 0 ≤ n) (hw : n < 2 ^ 63)
    (h : load_config pkg [[d1], [d2]] = .ok c) :
    c.parameters.batch_size = n.toNat := by
  unfold load_config at h
  simp only [loadFiles, load_path] at h
  rcases exceptBind_ok h with ⟨x1, hx1, h⟩
  rcases exceptBind_ok h with ⟨x2, hx2, h⟩
  rcases exceptBind_ok hx1 with ⟨y1, hy1, hx1⟩
  rcases exceptBind_ok hx2 with ⟨y2, hy2, hx2⟩
  have e1 : y2 = x2 := exceptOk_inj hx2
  have e2 : x2 = c := exceptOk_inj h
  rcases loadDoc_ok hy2 with ⟨ss, sk, _, _, _, _, hp⟩
  rcases hp with ⟨hbad, _⟩ | hap
  · rw [idx_of_badvalue hbad "batch-size"] at hn
    cases hn
  · rw [e1, e2] at hap
    exact applyParams_batch hap hn h0 hw

/-- Witness for C3 at two concrete files setting batch-size to 100 then 42. -/
theorem c3_later_file_wins_witness :
    batchSizeResult.parameters.batch_size = (42 : Int).toNat :=
  c3_later_file_wins "beamium" (batchSizeDoc 100) (batchSizeDoc 42)
    batchSizeResult 100 42 rfl rfl (by norm_num) (by norm_num) rfl
